import Mathlib

/-!
Verification of the tenantee property-management frontend.

The development shallowly embeds the logic of `PropertyPage` (tenant
assignment workflow, derived financial view model) and of
`EditTenantModal` (display-name splitting for form pre-population).
Pure computations become Lean functions; the async submit handlers become
explicit functions from inputs and call outcome to a new view state plus
an ordered trace of observable side effects.
-/

namespace Tenantee

/-- A tenant as fetched from the API: identity and display name. -/
structure Tenant where
  id : Nat
  name : String
deriving DecidableEq, Repr

/-- A monetary amount paired with a currency code. -/
structure Money where
  amount : Int
  currency : String
deriving DecidableEq, Repr

/-- The calendar components of an expense date that the page compares:
`getMonth()` (0-based month) and `getFullYear()`. -/
structure DateRec where
  year : Int
  month : Nat
deriving DecidableEq, Repr

/-- An expense of a property: a date and a monetary amount. -/
structure Expense where
  date : DateRec
  amount : Money
deriving DecidableEq, Repr

/-- A property as fetched from the API, with the fields the page reads. -/
structure Property where
  id : Nat
  name : String
  tenants : List Tenant
  expenses : List Expense
  monthly_revenue : Option Money
deriving DecidableEq, Repr

/-- Embeds the `tenantOptions` memo of `PropertyPage`:
if either fetch result is absent the list is empty; otherwise the ids of
the property's tenants are collected and the tenant collection is filtered
to those whose id is not among them. -/
def tenantOptions (tenants : Option (List Tenant)) (property : Option Property) :
    List Tenant :=
  match tenants, property with
  | some ts, some p =>
      let tenantIds := p.tenants.map Tenant.id
      ts.filter (fun tenant => !(tenantIds.contains tenant.id))
  | _, _ => []

/-- An observable side effect of the tenant-assignment workflow, in the
order the handlers perform them. -/
inductive Ev where
  /-- `propertyApiService.addTenant(property.id, selectedTenant.id)` -/
  | apiAddTenant (propertyId tenantId : Nat)
  /-- `propertyApiService.removeTenant(id, selectedTenant.id)` — the route
  parameter `id` is a string. -/
  | apiRemoveTenant (routeId : String) (tenantId : Nat)
  /-- `showSuccess(title, message)` -/
  | notifySuccess (title message : String)
  /-- `showError(title, message)` -/
  | notifyError (title message : String)
  /-- `setSelectedTenant(null)` -/
  | clearSelection
  /-- `mutate()` — schedules the refetch of property data. -/
  | mutate
  /-- `selectRef.current.value = ''` -/
  | selectReset
  /-- `closeConfirmAddModal()` -/
  | closeAddModal
  /-- `closeConfirmRemoveModal()` -/
  | closeRemoveModal
deriving DecidableEq, Repr

/-- The local view state the handlers read and write: the selected tenant,
the two confirmation-modal disclosures, and the select widget's value. -/
structure ViewState where
  selectedTenant : Option Tenant
  addModalOpen : Bool
  removeModalOpen : Bool
  selectValue : String
deriving DecidableEq, Repr

/-- Whether `onTenantAddSubmit`'s guard
`if (property && selectedTenant && selectRef.current)` passes;
`selectRefPresent` stands for `selectRef.current` being non-null. -/
def addSubmitGuard (property : Option Property) (st : ViewState)
    (selectRefPresent : Bool) : Bool :=
  property.isSome && st.selectedTenant.isSome && selectRefPresent

/-- The first phase of `onTenantAddSubmit`, up to the `await`: when the
guard passes, the add-tenant API call is issued and the handler suspends
with the view state untouched (selection still set, modal still open);
when the guard fails nothing happens. Returns the issued API call, if any. -/
def addSubmitStart (property : Option Property) (st : ViewState)
    (selectRefPresent : Bool) : Option Ev :=
  match property, st.selectedTenant, selectRefPresent with
  | some p, some t, true => some (Ev.apiAddTenant p.id t.id)
  | _, _, _ => none

/-- Embeds `onTenantAddSubmit` as a whole run, given the outcome of the
awaited API call (`true` = the promise resolved, `false` = it rejected):
guard, API call, try/catch notification, then the `finally` block
`setSelectedTenant(null); mutate(); selectRef.current.value = '';
closeConfirmAddModal()`. Returns the final view state and the ordered
trace of side effects. -/
def onTenantAddSubmit (property : Option Property) (st : ViewState)
    (selectRefPresent : Bool) (outcome : Bool) : ViewState × List Ev :=
  match property, st.selectedTenant, selectRefPresent with
  | some p, some t, true =>
      ({ st with selectedTenant := none, selectValue := "", addModalOpen := false },
        [Ev.apiAddTenant p.id t.id,
         if outcome then
           Ev.notifySuccess "Tenant added" (t.name ++ " was added to the property.")
         else
           Ev.notifyError "Error"
             "An error occured while trying to add the tenant to the property.",
         Ev.clearSelection, Ev.mutate, Ev.selectReset, Ev.closeAddModal])
  | _, _, _ => (st, [])

/-- The first phase of `onTenantRemoveSubmit`, up to the `await`: the guard
is `if (selectedTenant && id)`. Returns the issued API call, if any. -/
def removeSubmitStart (routeId : Option String) (st : ViewState) : Option Ev :=
  match st.selectedTenant, routeId with
  | some t, some i => some (Ev.apiRemoveTenant i t.id)
  | _, _ => none

/-- Embeds `onTenantRemoveSubmit` as a whole run, given the outcome of the
awaited API call: guard, API call, try/catch notification, then the
`finally` block `setSelectedTenant(null); closeConfirmRemoveModal();
mutate()`. -/
def onTenantRemoveSubmit (routeId : Option String) (st : ViewState)
    (outcome : Bool) : ViewState × List Ev :=
  match st.selectedTenant, routeId with
  | some t, some i =>
      ({ st with selectedTenant := none, removeModalOpen := false },
        [Ev.apiRemoveTenant i t.id,
         if outcome then
           Ev.notifySuccess "Tenant removed" (t.name ++ " was removed from the property")
         else
           Ev.notifyError "Error"
             "An error occurred while trying to remove the tenant from the property",
         Ev.clearSelection, Ev.closeRemoveModal, Ev.mutate])
  | _, _ => (st, [])

/-- The add workflow instance is idle: no selection pending and its
confirmation modal closed. -/
def addIdle (st : ViewState) : Prop :=
  st.selectedTenant = none ∧ st.addModalOpen = false

/-- The remove workflow instance is idle: no selection pending and its
confirmation modal closed. -/
def removeIdle (st : ViewState) : Prop :=
  st.selectedTenant = none ∧ st.removeModalOpen = false

end Tenantee

namespace Tenantee

theorem tenantOptions_mem (ts : List Tenant) (p : Property) (t : Tenant) :
    t ∈ tenantOptions (some ts) (some p) ↔
      t ∈ ts ∧ t.id ∉ p.tenants.map Tenant.id := by
  simp [tenantOptions]

theorem tenantOptions_nodup (ts : List Tenant) (p : Property)
    (h : (ts.map Tenant.id).Nodup) :
    ((tenantOptions (some ts) (some p)).map Tenant.id).Nodup := by
  unfold tenantOptions
  exact h.sublist ((List.filter_sublist ts).map Tenant.id)

/-- C1: `tenantOptions` is exactly the set difference by id — a tenant is
in the result iff it is in the collection and its id is not among the ids
of the property's tenants; every id present in `property.tenants` is
excluded; with id-duplicate-free input the result is id-duplicate-free;
recomputation with unchanged inputs gives the same list. -/
theorem tenantOptions_spec (ts : List Tenant) (p : Property) :
    (∀ t, t ∈ tenantOptions (some ts) (some p) ↔
        t ∈ ts ∧ t.id ∉ p.tenants.map Tenant.id)
    ∧ (∀ t, t.id ∈ p.tenants.map Tenant.id →
        t ∉ tenantOptions (some ts) (some p))
    ∧ ((ts.map Tenant.id).Nodup →
        ((tenantOptions (some ts) (some p)).map Tenant.id).Nodup)
    ∧ tenantOptions (some ts) (some p) = tenantOptions (some ts) (some p) := by
  refine ⟨fun t => tenantOptions_mem ts p t, fun t hid hmem => ?_,
    tenantOptions_nodup ts p, rfl⟩
  exact ((tenantOptions_mem ts p t).mp hmem).2 hid

/-- Witness for C1 at a concrete collection and property: tenant 2 is kept,
tenant 1 (already assigned) is excluded, and the result has no duplicate ids. -/
theorem tenantOptions_spec_witness :
    (Tenant.mk 2 "Bob" ∈ tenantOptions
        (some [Tenant.mk 1 "Alice", Tenant.mk 2 "Bob"])
        (some (Property.mk 7 "Villa" [Tenant.mk 1 "Alice"] [] none)))
    ∧ (Tenant.mk 1 "Alice" ∉ tenantOptions
        (some [Tenant.mk 1 "Alice", Tenant.mk 2 "Bob"])
        (some (Property.mk 7 "Villa" [Tenant.mk 1 "Alice"] [] none)))
    ∧ ((tenantOptions (some [Tenant.mk 1 "Alice", Tenant.mk 2 "Bob"])
        (some (Property.mk 7 "Villa" [Tenant.mk 1 "Alice"] [] none))).map
          Tenant.id).Nodup := by
  have h := tenantOptions_spec [Tenant.mk 1 "Alice", Tenant.mk 2 "Bob"]
    (Property.mk 7 "Villa" [Tenant.mk 1 "Alice"] [] none)
  refine ⟨(h.1 _).mpr (by decide), h.2.1 _ (by decide), h.2.2.1 (by decide)⟩

/-- The `isDisabled` condition of the tenant select control:
`isTenantsLoading || isEmpty(tenantOptions) || selectedTenant !== null`. -/
def selectDisabled (isTenantsLoading : Bool) (options : List Tenant)
    (st : ViewState) : Bool :=
  isTenantsLoading || options.isEmpty || st.selectedTenant.isSome

/-- C2: whatever the outcome of the awaited API call (resolved or
rejected), a guarded run of `onTenantAddSubmit` or `onTenantRemoveSubmit`
ends with the selection cleared and the workflow idle, and its trace
performs the cleanup — clear selection, refetch, close modal — in every
case: the `finally` block runs unconditionally. -/
theorem submit_reconciles_unconditionally (p : Property) (t : Tenant)
    (a r : Bool) (sv : String) (i : String) (outcome : Bool) :
    ((onTenantAddSubmit (some p) (ViewState.mk (some t) a r sv) true
        outcome).1.selectedTenant = none
      ∧ addIdle (onTenantAddSubmit (some p) (ViewState.mk (some t) a r sv)
          true outcome).1
      ∧ Ev.clearSelection ∈ (onTenantAddSubmit (some p)
          (ViewState.mk (some t) a r sv) true outcome).2
      ∧ Ev.mutate ∈ (onTenantAddSubmit (some p)
          (ViewState.mk (some t) a r sv) true outcome).2
      ∧ Ev.closeAddModal ∈ (onTenantAddSubmit (some p)
          (ViewState.mk (some t) a r sv) true outcome).2)
    ∧ ((onTenantRemoveSubmit (some i) (ViewState.mk (some t) a r sv)
        outcome).1.selectedTenant = none
      ∧ removeIdle (onTenantRemoveSubmit (some i)
          (ViewState.mk (some t) a r sv) outcome).1
      ∧ Ev.clearSelection ∈ (onTenantRemoveSubmit (some i)
          (ViewState.mk (some t) a r sv) outcome).2
      ∧ Ev.mutate ∈ (onTenantRemoveSubmit (some i)
          (ViewState.mk (some t) a r sv) outcome).2
      ∧ Ev.closeRemoveModal ∈ (onTenantRemoveSubmit (some i)
          (ViewState.mk (some t) a r sv) outcome).2) := by
  cases outcome <;>
    simp [onTenantAddSubmit, onTenantRemoveSubmit, addIdle, removeIdle]

/-- C3 counterexample: while the first submission is pending the `finally`
block has not yet run, so the view state is unchanged — the tenant is
still selected and the modal open. Re-invoking either handler in that
state passes the guard and issues a second API call, contradicting the
claim that no second call can be started before reconciliation. -/
theorem submit_reinvoke_counterexample :
    addSubmitStart (some (Property.mk 7 "Sunset Villa" [] [] none))
        (ViewState.mk (some (Tenant.mk 2 "Alice")) true false "2") true =
      some (Ev.apiAddTenant 7 2)
    ∧ removeSubmitStart (some "7")
        (ViewState.mk (some (Tenant.mk 2 "Alice")) false true "") =
      some (Ev.apiRemoveTenant "7" 2) := by
  exact ⟨rfl, rfl⟩

/-- C3 amended: the handlers' guards check only that the inputs are
present, so while a submission is pending (selection not yet cleared) a
second invocation does start a second API call; a re-invocation is a no-op
only once reconciliation has cleared the selection, and what is disabled
while a tenant is selected is the select control (the add path's trigger),
not the confirm action. -/
theorem submit_reinvoke_amended (p : Property) (t : Tenant) (st : ViewState)
    (refP oc load : Bool) (i : String) (options : List Tenant) :
    (st.selectedTenant = some t →
      addSubmitStart (some p) st true = some (Ev.apiAddTenant p.id t.id)
      ∧ removeSubmitStart (some i) st = some (Ev.apiRemoveTenant i t.id))
    ∧ (st.selectedTenant = none →
      onTenantAddSubmit (some p) st refP oc = (st, [])
      ∧ onTenantRemoveSubmit (some i) st oc = (st, []))
    ∧ (st.selectedTenant = some t →
      selectDisabled load options st = true) := by
  refine ⟨fun h => ?_, fun h => ?_, fun h => ?_⟩
  · simp [addSubmitStart, removeSubmitStart, h]
  · simp [onTenantAddSubmit, onTenantRemoveSubmit, h]
  · simp [selectDisabled, h]

/-- Witness for the amended C3 at a concrete pending state: the second
invocation issues the call, the reconciled state ignores invocation, and
the select control is disabled. -/
theorem submit_reinvoke_amended_witness :
    (addSubmitStart (some (Property.mk 7 "Sunset Villa" [] [] none))
        (ViewState.mk (some (Tenant.mk 2 "Alice")) true false "2") true =
      some (Ev.apiAddTenant 7 2))
    ∧ (onTenantAddSubmit (some (Property.mk 7 "Sunset Villa" [] [] none))
        (ViewState.mk none false false "") true true =
      (ViewState.mk none false false "", []))
    ∧ selectDisabled false [Tenant.mk 2 "Alice"]
        (ViewState.mk (some (Tenant.mk 2 "Alice")) true false "2") = true := by
  refine ⟨((submit_reinvoke_amended (Property.mk 7 "Sunset Villa" [] [] none)
      (Tenant.mk 2 "Alice")
      (ViewState.mk (some (Tenant.mk 2 "Alice")) true false "2")
      true true false "7" [Tenant.mk 2 "Alice"]).1 rfl).1,
    ((submit_reinvoke_amended (Property.mk 7 "Sunset Villa" [] [] none)
      (Tenant.mk 2 "Alice") (ViewState.mk none false false "")
      true true false "7" [Tenant.mk 2 "Alice"]).2.1 rfl).1,
    (submit_reinvoke_amended (Property.mk 7 "Sunset Villa" [] [] none)
      (Tenant.mk 2 "Alice")
      (ViewState.mk (some (Tenant.mk 2 "Alice")) true false "2")
      true true false "7" [Tenant.mk 2 "Alice"]).2.2 rfl⟩

/-- C4 counterexample: in a successful add run the refetch scheduling
(`mutate()`) occurs strictly before the modal close
(`closeConfirmAddModal()`), so the claimed order "modal close, and only
then the refetch" is violated; the full trace is listed. -/
theorem effect_order_counterexample :
    (onTenantAddSubmit (some (Property.mk 7 "Sunset Villa" [] [] none))
        (ViewState.mk (some (Tenant.mk 2 "Alice")) true false "2")
        true true).2 =
      [Ev.apiAddTenant 7 2,
       Ev.notifySuccess "Tenant added" "Alice was added to the property.",
       Ev.clearSelection, Ev.mutate, Ev.selectReset, Ev.closeAddModal]
    ∧ ((onTenantAddSubmit (some (Property.mk 7 "Sunset Villa" [] [] none))
        (ViewState.mk (some (Tenant.mk 2 "Alice")) true false "2")
        true true).2.indexOf Ev.mutate <
      (onTenantAddSubmit (some (Property.mk 7 "Sunset Villa" [] [] none))
        (ViewState.mk (some (Tenant.mk 2 "Alice")) true false "2")
        true true).2.indexOf Ev.closeAddModal) := by
  exact ⟨by decide, by decide⟩

/-- C4 amended: every guarded run's effects occur in this strict order —
for add: API call, notification, selection reset, refetch scheduling,
select-widget reset, modal close; for remove: API call, notification,
selection reset, modal close, refetch scheduling. -/
theorem effect_order_amended (p : Property) (t : Tenant) (a r : Bool)
    (sv i : String) (outcome : Bool) :
    (onTenantAddSubmit (some p) (ViewState.mk (some t) a r sv) true
        outcome).2 =
      [Ev.apiAddTenant p.id t.id,
       if outcome then
         Ev.notifySuccess "Tenant added" (t.name ++ " was added to the property.")
       else
         Ev.notifyError "Error"
           "An error occured while trying to add the tenant to the property.",
       Ev.clearSelection, Ev.mutate, Ev.selectReset, Ev.closeAddModal]
    ∧ (onTenantRemoveSubmit (some i) (ViewState.mk (some t) a r sv)
        outcome).2 =
      [Ev.apiRemoveTenant i t.id,
       if outcome then
         Ev.notifySuccess "Tenant removed" (t.name ++ " was removed from the property")
       else
         Ev.notifyError "Error"
           "An error occurred while trying to remove the tenant from the property",
       Ev.clearSelection, Ev.closeRemoveModal, Ev.mutate] := by
  exact ⟨rfl, rfl⟩

/-- C7 counterexample: in a successful add run the success message is
"Alice was added to the property." — it does not contain the property's
name "Sunset Villa", so the claim that the text names both the tenant and
the property fails. -/
theorem notification_counterexample :
    (onTenantAddSubmit (some (Property.mk 7 "Sunset Villa" [] [] none))
        (ViewState.mk (some (Tenant.mk 2 "Alice")) true false "2")
        true true).2 =
      [Ev.apiAddTenant 7 2,
       Ev.notifySuccess "Tenant added" "Alice was added to the property.",
       Ev.clearSelection, Ev.mutate, Ev.selectReset, Ev.closeAddModal]
    ∧ ¬ ("Sunset Villa".data <:+: "Alice was added to the property.".data) := by
  exact ⟨by decide, by decide⟩

/-- C7 amended: the success notification names the tenant (the tenant's
display name starts the message) but refers to the property only
generically, and the error notification is a fixed generic text,
independent of the inputs and of the rejection reason — the raw error is
never surfaced. -/
theorem notification_texts (p : Property) (t : Tenant) (a r : Bool)
    (sv i : String) :
    ((onTenantAddSubmit (some p) (ViewState.mk (some t) a r sv)
        true true).2)[1]? =
      some (Ev.notifySuccess "Tenant added"
        (t.name ++ " was added to the property."))
    ∧ t.name.data <+: (t.name ++ " was added to the property.").data
    ∧ ((onTenantAddSubmit (some p) (ViewState.mk (some t) a r sv)
        true false).2)[1]? =
      some (Ev.notifyError "Error"
        "An error occured while trying to add the tenant to the property.")
    ∧ ((onTenantRemoveSubmit (some i) (ViewState.mk (some t) a r sv)
        true).2)[1]? =
      some (Ev.notifySuccess "Tenant removed"
        (t.name ++ " was removed from the property"))
    ∧ t.name.data <+: (t.name ++ " was removed from the property").data
    ∧ ((onTenantRemoveSubmit (some i) (ViewState.mk (some t) a r sv)
        false).2)[1]? =
      some (Ev.notifyError "Error"
        "An error occurred while trying to remove the tenant from the property") := by
  refine ⟨rfl, ?_, rfl, rfl, ?_, rfl⟩ <;>
    exact String.data_append .. ▸ ⟨_, rfl⟩

/-- C8: when a required input is absent — `property` or the selection for
add, the selection or the route id for remove — the handler is a no-op:
the state is returned unchanged and the effect trace is empty (no API
call, no notification); as a total Lean function it also cannot throw. -/
theorem submit_noop_when_input_absent (property : Option Property)
    (i : Option String) (st : ViewState) (refP oc : Bool) :
    (property = none ∨ st.selectedTenant = none →
      onTenantAddSubmit property st refP oc = (st, []))
    ∧ (st.selectedTenant = none ∨ i = none →
      onTenantRemoveSubmit i st oc = (st, [])) := by
  constructor
  · rintro (h | h) <;>
      cases hp : property <;> cases hs : st.selectedTenant <;> cases refP <;>
      simp_all [onTenantAddSubmit]
  · rintro (h | h) <;>
      cases hi : i <;> cases hs : st.selectedTenant <;>
      simp_all [onTenantRemoveSubmit]

/-- Witness for C8 at concrete absent inputs: both handlers leave the
state unchanged and produce no effects. -/
theorem submit_noop_witness :
    onTenantAddSubmit none (ViewState.mk none false false "") true true =
      (ViewState.mk none false false "", [])
    ∧ onTenantRemoveSubmit none (ViewState.mk none false false "") true =
      (ViewState.mk none false false "", []) :=
  ⟨(submit_noop_when_input_absent none none
      (ViewState.mk none false false "") true true).1 (Or.inl rfl),
    (submit_noop_when_input_absent none none
      (ViewState.mk none false false "") true true).2 (Or.inr rfl)⟩

/-- Embeds the date comparison of the `expenses` memo:
`expenseDate.getMonth() === currentDate.getMonth() &&
expenseDate.getFullYear() === currentDate.getFullYear()`. -/
def isCurrentMonth (d now : DateRec) : Bool :=
  d.month == now.month && d.year == now.year

/-- Embeds the `expenses` memo of `PropertyPage` on a present property:
filter the property's expenses to those in the same calendar month and
year as `now`, then `reduce((acc, e) => acc + Number(e.amount.amount), 0)`. -/
def currentMonthExpenseTotal (expenses : List Expense) (now : DateRec) : Int :=
  ((expenses.filter (fun e => isCurrentMonth e.date now)).foldl
    (fun acc e => acc + e.amount.amount) 0)

theorem foldl_add_amount (l : List Expense) (init : Int) :
    l.foldl (fun acc e => acc + e.amount.amount) init =
      init + (l.map (fun e => e.amount.amount)).sum := by
  induction l generalizing init with
  | nil => simp
  | cons x xs ih => simp [ih, add_assoc]

/-- C5: the current-month total is the sum of the amounts of exactly the
expenses whose date shares the calendar month and year of `now`; the
empty collection totals 0; and the total is invariant under any
permutation of the expense list. -/
theorem currentMonthExpenseTotal_spec (es es' : List Expense) (now : DateRec)
    (hperm : es.Perm es') :
    currentMonthExpenseTotal es now =
      ((es.filter (fun e => decide (e.date.month = now.month ∧
          e.date.year = now.year))).map (fun e => e.amount.amount)).sum
    ∧ currentMonthExpenseTotal [] now = 0
    ∧ currentMonthExpenseTotal es now = currentMonthExpenseTotal es' now := by
  have hpred : ∀ e : Expense, isCurrentMonth e.date now =
      decide (e.date.month = now.month ∧ e.date.year = now.year) := by
    intro e
    by_cases h1 : e.date.month = now.month <;>
      by_cases h2 : e.date.year = now.year <;>
      simp [isCurrentMonth, h1, h2]
  refine ⟨?_, rfl, ?_⟩
  · rw [currentMonthExpenseTotal, foldl_add_amount, zero_add,
      List.filter_congr (fun e _ => hpred e)]
  · rw [currentMonthExpenseTotal, currentMonthExpenseTotal,
      foldl_add_amount, foldl_add_amount]
    have := ((hperm.filter (fun e => isCurrentMonth e.date now)).map
      (fun e => e.amount.amount)).sum_eq
    omega

/-- Witness for C5: the spec's example — one expense of 100 in the current
month and one of 50 in the previous month totals 100, and reordering the
two expenses leaves the total unchanged. -/
theorem currentMonthExpenseTotal_spec_witness :
    currentMonthExpenseTotal
        [Expense.mk (DateRec.mk 2026 9) (Money.mk 100 "USD"),
         Expense.mk (DateRec.mk 2026 8) (Money.mk 50 "USD")]
        (DateRec.mk 2026 9) = 100
    ∧ currentMonthExpenseTotal [] (DateRec.mk 2026 9) = 0
    ∧ currentMonthExpenseTotal
        [Expense.mk (DateRec.mk 2026 9) (Money.mk 100 "USD"),
         Expense.mk (DateRec.mk 2026 8) (Money.mk 50 "USD")]
        (DateRec.mk 2026 9) =
      currentMonthExpenseTotal
        [Expense.mk (DateRec.mk 2026 8) (Money.mk 50 "USD"),
         Expense.mk (DateRec.mk 2026 9) (Money.mk 100 "USD")]
        (DateRec.mk 2026 9) := by
  have h := currentMonthExpenseTotal_spec
    [Expense.mk (DateRec.mk 2026 9) (Money.mk 100 "USD"),
     Expense.mk (DateRec.mk 2026 8) (Money.mk 50 "USD")]
    [Expense.mk (DateRec.mk 2026 8) (Money.mk 50 "USD"),
     Expense.mk (DateRec.mk 2026 9) (Money.mk 100 "USD")]
    (DateRec.mk 2026 9) (List.Perm.swap _ _ _)
  refine ⟨?_, h.2.1, h.2.2⟩
  rw [h.1]
  decide

/-- One bar of the profit/loss chart: a label, a value and a fill color. -/
structure ChartEntry where
  name : String
  value : Int
  fill : String
deriving DecidableEq, Repr

/-- Embeds the `chartData` memo of `PropertyPage`: two fixed entries,
`Revenue` with value `revenue?.amount ?? 0` and fill `#00B87C`, then
`Expenses` with value `expenses ?? 0` and fill `#FF5C93`. -/
def chartData (revenue : Option Money) (expenses : Option Int) :
    List ChartEntry :=
  [ChartEntry.mk "Revenue" ((revenue.map Money.amount).getD 0) "#00B87C",
   ChartEntry.mk "Expenses" (expenses.getD 0) "#FF5C93"]

/-- C6: for every revenue and expense total the chart series has exactly
two entries, Revenue first and Expenses second; the Revenue value is the
revenue amount, or 0 when revenue is absent; the Expenses value is the
expense total, or 0 when absent; and the fill colors are the fixed
constants, independent of the data. -/
theorem chartData_spec (revenue : Option Money) (expenses : Option Int) :
    (chartData revenue expenses).length = 2
    ∧ (chartData revenue expenses)[0]? =
      some (ChartEntry.mk "Revenue"
        (match revenue with | some m => m.amount | none => 0) "#00B87C")
    ∧ (chartData revenue expenses)[1]? =
      some (ChartEntry.mk "Expenses"
        (match expenses with | some e => e | none => 0) "#FF5C93") := by
  cases revenue <;> cases expenses <;> exact ⟨rfl, rfl, rfl⟩

/-- Embeds JavaScript `String.prototype.split` with a one-character
separator, on the character list of the string: occurrences of the
separator delimit segments and empty segments are kept, so
`"a  b".split(' ')` is `["a", "", "b"]` and `"".split(' ')` is `[""]`. -/
def splitChar (sep : Char) : List Char → List (List Char)
  | [] => [[]]
  | c :: cs =>
      if c = sep then [] :: splitChar sep cs
      else
        match splitChar sep cs with
        | [] => [[c]]
        | w :: ws => (c :: w) :: ws

/-- Embeds the edit-form pre-population of `EditTenantModal`:
`first_name: tenant.name.split(' ')[0]`,
`last_name: tenant.name.split(' ')[1]`; a JS out-of-range index yields
`undefined`, modelled as `none`. -/
def splitDisplayName (name : List Char) :
    Option (List Char) × Option (List Char) :=
  ((splitChar ' ' name)[0]?, (splitChar ' ' name)[1]?)

/-- Splitting on every character satisfying a predicate, keeping empty
segments; `wsTokens` filters the empties away. -/
def splitWhen (p : Char → Bool) : List Char → List (List Char)
  | [] => [[]]
  | c :: cs =>
      if p c then [] :: splitWhen p cs
      else
        match splitWhen p cs with
        | [] => [[c]]
        | w :: ws => (c :: w) :: ws

/-- Modelled from the spec's words, for comparison only: the
whitespace-delimited tokens of a name — the nonempty segments between
whitespace characters. -/
def wsTokens (s : List Char) : List (List Char) :=
  (splitWhen Char.isWhitespace s).filter (fun w => ¬ w.isEmpty)

theorem splitChar_not_mem (sep : Char) (t : List Char) (h : sep ∉ t) :
    splitChar sep t = [t] := by
  induction t with
  | nil => rfl
  | cons c cs ih =>
      rw [splitChar,
        if_neg (fun hc => h (List.mem_cons.mpr (Or.inl hc.symm))),
        ih (fun hm => h (List.mem_cons_of_mem c hm))]

theorem splitChar_append (sep : Char) (t r : List Char) (h : sep ∉ t) :
    splitChar sep (t ++ sep :: r) = t :: splitChar sep r := by
  induction t with
  | nil => simp [splitChar]
  | cons c cs ih =>
      rw [List.cons_append, splitChar,
        if_neg (fun hc => h (List.mem_cons.mpr (Or.inl hc.symm))),
        ih (fun hm => h (List.mem_cons_of_mem c hm))]

/-- C9 counterexample: for the display name "Jane  Doe" (two consecutive
spaces) the code's `split(' ')[1]` is the empty segment between the two
spaces, while the second whitespace-delimited token is "Doe" — the
pre-population does not use the first two whitespace-delimited tokens. -/
theorem splitDisplayName_counterexample :
    (splitDisplayName "Jane  Doe".data).2 = some "".data
    ∧ (wsTokens "Jane  Doe".data)[1]? = some "Doe".data
    ∧ (splitDisplayName "Jane  Doe".data).2 ≠ (wsTokens "Jane  Doe".data)[1]? := by
  exact ⟨by decide, by decide, by decide⟩

/-- C9 amended: the pre-population splits on the literal space character —
`first_name` is the segment before the first space and `last_name` the
segment between the first and second spaces, later segments being dropped;
when the name's segments are separated by single spaces these coincide
with the first two whitespace-delimited tokens, and "Jane Doe Smith"
yields first "Jane" and last "Doe". -/
theorem splitDisplayName_amended (t1 t2 rest : List Char)
    (h1 : ' ' ∉ t1) (h2 : ' ' ∉ t2) :
    (splitDisplayName (t1 ++ (' ' :: (t2 ++ (' ' :: rest))))).1 = some t1
    ∧ (splitDisplayName (t1 ++ (' ' :: (t2 ++ (' ' :: rest))))).2 = some t2
    ∧ (splitDisplayName (t1 ++ (' ' :: t2))).1 = some t1
    ∧ (splitDisplayName (t1 ++ (' ' :: t2))).2 = some t2 := by
  rw [splitDisplayName, splitDisplayName,
    splitChar_append ' ' t1 (t2 ++ ' ' :: rest) h1,
    splitChar_append ' ' t1 t2 h1,
    splitChar_append ' ' t2 rest h2,
    splitChar_not_mem ' ' t2 h2]
  refine ⟨?_, ?_, ?_, ?_⟩ <;> simp

/-- Witness for the amended C9: "Jane Doe Smith" pre-populates first name
"Jane" and last name "Doe", the third token dropped. -/
theorem splitDisplayName_amended_witness :
    splitDisplayName "Jane Doe Smith".data =
      (some "Jane".data, some "Doe".data) := by
  have h := splitDisplayName_amended "Jane".data "Doe".data "Smith".data
    (by decide) (by decide)
  have e : "Jane Doe Smith".data =
      "Jane".data ++ ' ' :: "Doe".data ++ ' ' :: "Smith".data := by decide
  rw [Prod.ext_iff, e]
  exact ⟨h.1, h.2.1⟩

/-- The `required` rule of the edit form's fields: unsatisfied for a
missing (`undefined`) value and for the empty string. -/
def requiredSatisfied : Option (List Char) → Bool
  | none => false
  | some s => !s.isEmpty

/-- `formState.isValid` of the edit form: both required fields satisfied. -/
def formIsValid (first last : Option (List Char)) : Bool :=
  requiredSatisfied first && requiredSatisfied last

/-- The update button's `isDisabled` condition:
`!formState.isValid || formState.isSubmitting || tenant === null`. -/
def updateDisabled (isValid isSubmitting tenantPresent : Bool) : Bool :=
  !isValid || isSubmitting || !tenantPresent

/-- C10: for a nonempty display name containing no space, the
pre-population sets `first_name` to the entire name and `last_name` to the
absent value (`split(' ')` has no second element), the required-last-name
rule leaves the form invalid so the update button is disabled, and typing
any nonempty last name makes the form valid again. -/
theorem singleToken_prepopulation (name typed : List Char)
    (h : ' ' ∉ name) (h0 : name ≠ []) :
    (splitDisplayName name).1 = some name
    ∧ (splitDisplayName name).2 = none
    ∧ formIsValid (splitDisplayName name).1 (splitDisplayName name).2 = false
    ∧ updateDisabled
        (formIsValid (splitDisplayName name).1 (splitDisplayName name).2)
        false true = true
    ∧ (typed ≠ [] →
        formIsValid (splitDisplayName name).1 (some typed) = true) := by
  rw [splitDisplayName, splitChar_not_mem ' ' name h]
  refine ⟨rfl, rfl, ?_, ?_, fun ht => ?_⟩
  · simp [formIsValid, requiredSatisfied]
  · simp [formIsValid, requiredSatisfied, updateDisabled]
  · cases name with
    | nil => exact absurd rfl h0
    | cons c cs =>
        cases typed with
        | nil => exact absurd rfl ht
        | cons d ds => rfl

/-- Witness for C10 at the single-token name "Madonna": first name is the
whole name, last name absent, form invalid, button disabled, and typing
"X" restores validity. -/
theorem singleToken_prepopulation_witness :
    (splitDisplayName "Madonna".data).1 = some "Madonna".data
    ∧ (splitDisplayName "Madonna".data).2 = none
    ∧ formIsValid (splitDisplayName "Madonna".data).1
        (splitDisplayName "Madonna".data).2 = false
    ∧ updateDisabled
        (formIsValid (splitDisplayName "Madonna".data).1
          (splitDisplayName "Madonna".data).2) false true = true
    ∧ formIsValid (splitDisplayName "Madonna".data).1 (some "X".data) = true := by
  have h := singleToken_prepopulation "Madonna".data "X".data
    (by decide) (by decide)
  exact ⟨h.1, h.2.1, h.2.2.1, h.2.2.2.1, h.2.2.2.2 (by decide)⟩

end Tenantee
